import Mathlib

/-!
Verification of the decision logic of `src/api-utils.ts`: the offering
eligibility matcher `isMatchingOffering`, the exchange status deriver
`generateExchangeStatusValues`, the status-label renderer
`renderOrderStatus`, and the exchange projection performed inside
`fetchExchanges`.

Modelling conventions for the JavaScript semantics:
  * possibly-absent values (JS `undefined` on field access) are `Option`;
  * a JS expression that throws (`TypeError` on a field access of
    `undefined`) makes the enclosing computation return `none`;
  * string truthiness: a string is falsy exactly when it is empty;
  * `undefined` and `null` stay distinguishable via the `JsValue` type;
  * `Number(...)` coercion is modelled on decimal natural-number strings
    (`Number(undefined)` is NaN, `Number("")` is 0, a digit string parses,
    anything else is NaN); NaN is `none` and prints as "NaN".
-/

/-! ### Offering eligibility matcher: data model -/

/-- A constraint field's `filter` object; only `filter.const` is read. -/
structure FieldFilter where
  const : String
deriving DecidableEq

/-- One constraint of an input descriptor: a JSON-path list and a filter. -/
structure ConstraintField where
  path : List String
  filter : FieldFilter
deriving DecidableEq

/-- `constraints` object of an input descriptor. -/
structure Constraints where
  fields : List ConstraintField
deriving DecidableEq

/-- One input descriptor of `requiredClaims`. -/
structure InputDescriptor where
  constraints : Constraints
deriving DecidableEq

/-- `offering.data.requiredClaims`. -/
structure RequiredClaims where
  input_descriptors : List InputDescriptor
deriving DecidableEq

/-- `offering.data`; only `requiredClaims` is read by the matcher. -/
structure OfferingData where
  requiredClaims : RequiredClaims
deriving DecidableEq

/-- An offering, as consumed by `isMatchingOffering`. -/
structure Offering where
  data : OfferingData
deriving DecidableEq

/-- Decoded verifiable-credential payload (`Jwt.parse(...).decoded.payload.vc`).
`credentialSubject` is the list of claim keys in `for ... in` order (an
absent subject iterates zero times, i.e. behaves as `[]`); `issuer` and
`type` may be absent. -/
structure VcModel where
  credentialSubject : List String
  issuer : Option String
  type : Option (List String)
deriving DecidableEq

/-- The JSON path string `$.credentialSubject.<key>` compared against a
constraint's `path` entries. -/
def subjectPath (key : String) : String :=
  "$.credentialSubject." ++ key

/-- `vc.issuer && field.filter.const == vc.issuer`: the issuer must be
present and truthy (non-empty) and equal to the filter constant. -/
def issuerMatch (vc : VcModel) (field : ConstraintField) : Bool :=
  match vc.issuer with
  | some s => s != "" && field.filter.const == s
  | none => false

/-- `vc.type && vc.type.includes(field.filter.const.toString())`: the type
list must be present (an array is truthy even when empty) and contain the
filter constant. -/
def typeMatch (vc : VcModel) (field : ConstraintField) : Bool :=
  match vc.type with
  | some ts => ts.contains field.filter.const
  | none => false

/-- One iteration of the `for (const field of ... fields)` loop of
`isMatchingOffering`: add one match per `credentialSubject` key whose
`$.credentialSubject.<key>` path appears in `field.path`, then one if the
issuer constraint fires, then one if the type constraint fires. -/
def matchStep (vc : VcModel) (acc : Nat) (field : ConstraintField) : Nat :=
  let m1 := acc + vc.credentialSubject.countP (fun key => field.path.contains (subjectPath key))
  let m2 := if field.path.contains "$.issuer" && issuerMatch vc field then m1 + 1 else m1
  if field.path.contains "$.type[*]" && typeMatch vc field then m2 + 1 else m2

/-- `isMatchingOffering(offering, credentials)` from `src/api-utils.ts`.
`decode` stands for the external `Jwt.parse` collaborator; a missing first
credential or a decode failure throws (`none`), and so does an offering
with no input descriptor (`input_descriptors[0].constraints` on
`undefined`). Otherwise the loop accumulates `matches` and the result is
`matches == fields.length` (`Object.keys` of an array has one key per
element). -/
def isMatchingOffering (decode : String → Option VcModel) (offering : Offering)
    (credentials : List String) : Option Bool :=
  match credentials.head? >>= decode with
  | none => none
  | some vc =>
    match offering.data.requiredClaims.input_descriptors.head? with
    | none => none
    | some descriptor =>
      let fields := descriptor.constraints.fields
      some (fields.foldl (matchStep vc) 0 == fields.length)

/-- Match contribution of a single constraint field, as the specification
describes it: once per referenced `credentialSubject` claim key, once for a
satisfied issuer-equality constraint, once for a satisfied type-membership
constraint. -/
def fieldMatchCount (vc : VcModel) (field : ConstraintField) : Nat :=
  vc.credentialSubject.countP (fun key => field.path.contains (subjectPath key))
    + (if field.path.contains "$.issuer" && issuerMatch vc field then 1 else 0)
    + (if field.path.contains "$.type[*]" && typeMatch vc field then 1 else 0)

/-- Total match count accumulated over an offering's constraint fields. -/
def totalMatchCount (vc : VcModel) (fields : List ConstraintField) : Nat :=
  (fields.map (fieldMatchCount vc)).sum

theorem matchStep_eq_add (vc : VcModel) (n : Nat) (field : ConstraintField) :
    matchStep vc n field = n + fieldMatchCount vc field := by
  simp only [matchStep, fieldMatchCount]
  split <;> split <;> omega

theorem foldl_matchStep_eq (vc : VcModel) :
    ∀ (fields : List ConstraintField) (n : Nat),
      fields.foldl (matchStep vc) n = n + totalMatchCount vc fields := by
  intro fields
  induction fields with
  | nil => intro n; simp [totalMatchCount]
  | cons f fs ih =>
    intro n
    simp only [List.foldl_cons, ih, matchStep_eq_add, totalMatchCount, List.map_cons,
      List.sum_cons]
    omega

/-- Claim C1: for every offering and credential list whose first token
decodes (and whose offering has a first input descriptor),
`isMatchingOffering` returns `true` exactly when the total match count
accumulated over the offering's constraint fields equals the number of
constraints in its required-claims field list. -/
theorem isMatchingOffering_true_iff_count
    (decode : String → Option VcModel) (offering : Offering)
    (credentials : List String) (vc : VcModel) (descriptor : InputDescriptor)
    (hvc : credentials.head? >>= decode = some vc)
    (hd : offering.data.requiredClaims.input_descriptors.head? = some descriptor) :
    isMatchingOffering decode offering credentials = some true ↔
      totalMatchCount vc descriptor.constraints.fields =
        descriptor.constraints.fields.length := by
  unfold isMatchingOffering
  rw [hvc, hd]
  simp [foldl_matchStep_eq]

/-- A concrete decoded credential used as a test fixture. -/
def vcEx : VcModel :=
  { credentialSubject := ["name", "country"]
    issuer := some "did:ex:issuer"
    type := some ["VerifiableCredential", "KnownCustomerCredential"] }

/-- A decode oracle recognising the single token "tokenA". -/
def decodeEx : String → Option VcModel :=
  fun s => if s = "tokenA" then some vcEx else none

/-- Fixture descriptor: one subject-path constraint and one type constraint. -/
def descriptorEx : InputDescriptor :=
  { constraints :=
    { fields :=
      [ { path := ["$.credentialSubject.country"], filter := { const := "" } }
      , { path := ["$.type[*]"], filter := { const := "KnownCustomerCredential" } } ] } }

/-- Fixture offering wrapping `descriptorEx`. -/
def offeringEx : Offering :=
  { data := { requiredClaims := { input_descriptors := [descriptorEx] } } }

/-- Witness for C1 at the fixture: hypotheses hold by evaluation and the
equivalence is the theorem instantiated there. -/
theorem isMatchingOffering_true_iff_count_witness :
    (["tokenA"].head? >>= decodeEx = some vcEx)
    ∧ (offeringEx.data.requiredClaims.input_descriptors.head? = some descriptorEx)
    ∧ (isMatchingOffering decodeEx offeringEx ["tokenA"] = some true ↔
        totalMatchCount vcEx descriptorEx.constraints.fields =
          descriptorEx.constraints.fields.length) :=
  ⟨by decide, rfl,
    isMatchingOffering_true_iff_count decodeEx offeringEx ["tokenA"] vcEx descriptorEx
      (by decide) rfl⟩

/-- Claim C8: `isMatchingOffering` consults only the first credential
token — two non-empty credential lists with the same head give the same
result for every offering and decode oracle. -/
theorem isMatchingOffering_first_credential_only
    (decode : String → Option VcModel) (offering : Offering)
    (a : String) (rest1 rest2 : List String) :
    isMatchingOffering decode offering (a :: rest1) =
      isMatchingOffering decode offering (a :: rest2) := rfl

/-- Claim C10: an offering whose first input descriptor has an empty
constraint field list matches every decodable credential (the loop runs
zero times and `0 == 0` holds), and only the first input descriptor is
ever consulted: two offerings with the same first descriptor decide alike
on every credential list. -/
theorem isMatchingOffering_empty_constraints :
    (∀ (decode : String → Option VcModel) (offering : Offering)
        (credentials : List String) (vc : VcModel) (descriptor : InputDescriptor),
      credentials.head? >>= decode = some vc →
      offering.data.requiredClaims.input_descriptors.head? = some descriptor →
      descriptor.constraints.fields = [] →
      isMatchingOffering decode offering credentials = some true)
    ∧ (∀ (decode : String → Option VcModel) (o1 o2 : Offering)
        (credentials : List String),
      o1.data.requiredClaims.input_descriptors.head? =
        o2.data.requiredClaims.input_descriptors.head? →
      isMatchingOffering decode o1 credentials =
        isMatchingOffering decode o2 credentials) := by
  constructor
  · intro decode offering credentials vc descriptor hvc hd hfields
    unfold isMatchingOffering
    rw [hvc, hd]
    simp [foldl_matchStep_eq, totalMatchCount, hfields]
  · intro decode o1 o2 credentials hhead
    unfold isMatchingOffering
    rw [hhead]

/-- Fixture offering whose single input descriptor has no constraints. -/
def offeringEmptyEx : Offering :=
  { data := { requiredClaims := { input_descriptors := [{ constraints := { fields := [] } }] } } }

/-- Fixture offering with the same first descriptor as `offeringEx` but an
extra second descriptor, which the matcher must ignore. -/
def offeringTwoDescEx : Offering :=
  { data := { requiredClaims := { input_descriptors :=
      [descriptorEx, { constraints := { fields :=
        [ { path := ["$.issuer"], filter := { const := "did:ex:other" } } ] } }] } } }

/-- Witness for C10: the empty-constraints fixture matches the fixture
credential, and an offering sharing its first descriptor decides alike. -/
theorem isMatchingOffering_empty_constraints_witness :
    (["tokenA"].head? >>= decodeEx = some vcEx)
    ∧ isMatchingOffering decodeEx offeringEmptyEx ["tokenA"] = some true
    ∧ isMatchingOffering decodeEx offeringEx ["tokenA", "tokenB"] =
        isMatchingOffering decodeEx offeringTwoDescEx ["tokenA", "tokenB"] :=
  ⟨by decide,
    isMatchingOffering_empty_constraints.1 decodeEx offeringEmptyEx ["tokenA"] vcEx
      { constraints := { fields := [] } } (by decide) rfl rfl,
    isMatchingOffering_empty_constraints.2 decodeEx offeringEx offeringTwoDescEx
      ["tokenA", "tokenB"] rfl⟩

/-! ### Exchange messages and status derivation -/

/-- Message kinds occurring in an exchange. -/
inductive MessageKind where
  | rfq
  | quote
  | order
  | orderstatus
  | close
deriving DecidableEq

/-- The `kind` tag of a message, as the string the code compares against. -/
def kindTag : MessageKind → String
  | MessageKind.rfq => "rfq"
  | MessageKind.quote => "quote"
  | MessageKind.order => "order"
  | MessageKind.orderstatus => "orderstatus"
  | MessageKind.close => "close"

/-- `privateData.payout.paymentDetails` of an rfq message. -/
structure PaymentDetails where
  address : Option String
  accountNumber : Option String
  bankName : Option String
deriving DecidableEq

/-- `privateData.payout`; `paymentDetails` may be absent. -/
structure PayoutPrivate where
  paymentDetails : Option PaymentDetails
deriving DecidableEq

/-- `privateData` of an rfq; `payout` may be absent (and is then
dereferenced without optional chaining by the code). -/
structure PrivateData where
  payout : Option PayoutPrivate
deriving DecidableEq

/-- A quote's `data.payin` / `data.payout` payload. -/
structure QuotePayload where
  amount : Option String
  fee : Option String
  currencyCode : Option String
deriving DecidableEq

/-- `metadata` of a message: only `exchangeId` and `to` are read. -/
structure Metadata where
  exchangeId : String
  «to» : String
deriving DecidableEq

/-- A protocol message. Kind-specific `data` fields are flattened into
options, matching dynamic field access (`undefined` when absent):
`reason` for close messages, `payin`/`payout`/`expiresAt` for quotes,
`payinAmount` and `privateData` for rfqs. -/
structure Message where
  kind : MessageKind
  metadata : Metadata
  createdAt : String
  reason : String
  payin : Option QuotePayload
  payout : Option QuotePayload
  expiresAt : Option String
  payinAmount : Option String
  privateData : Option PrivateData
deriving DecidableEq

/-- Substring test on character lists, the semantics of JS
`String.prototype.includes`. -/
def hasSub (pat : List Char) : List Char → Bool
  | [] => pat.isEmpty
  | c :: t => pat.isPrefixOf (c :: t) || hasSub pat t

/-- `generateExchangeStatusValues(exchangeMessage)` from
`src/api-utils.ts`: a close message dispatches on lower-cased substrings
of its `reason` in priority order; any other message yields its `kind`. -/
def generateExchangeStatusValues (exchangeMessage : Message) : String :=
  if exchangeMessage.kind = MessageKind.close then
    let r := exchangeMessage.reason.toList.map Char.toLower
    if hasSub "complete".toList r || hasSub "success".toList r then "completed"
    else if hasSub "expired".toList r then "expired"
    else if hasSub "cancelled".toList r then "cancelled"
    else "failed"
  else kindTag exchangeMessage.kind

/-- The close-reason rule exactly as the specification words it: over the
lower-cased reason, "complete" or "success" gives completed, else
"expired" gives expired, else "cancelled" gives cancelled, else failed. -/
def closeStatusSpec (reason : String) : String :=
  let r := reason.toList.map Char.toLower
  if hasSub "complete".toList r || hasSub "success".toList r then "completed"
  else if hasSub "expired".toList r then "expired"
  else if hasSub "cancelled".toList r then "cancelled"
  else "failed"

/-- A close message with a given reason and empty other fields. -/
def mkCloseMsg (reason : String) : Message :=
  { kind := MessageKind.close
    metadata := { exchangeId := "", «to» := "" }
    createdAt := ""
    reason := reason
    payin := none
    payout := none
    expiresAt := none
    payinAmount := none
    privateData := none }

/-- Claim C2: the derived status of a close message follows the
spec's priority rule over its lower-cased reason, any non-close message
yields its own kind tag, and the priority resolves a reason containing
both "complete" and "cancelled" to `completed`; the spec's four sample
reasons resolve as stated. -/
theorem generateExchangeStatusValues_spec :
    (∀ m : Message, generateExchangeStatusValues m =
      (if m.kind = MessageKind.close then closeStatusSpec m.reason else kindTag m.kind))
    ∧ generateExchangeStatusValues (mkCloseMsg "Order COMPLETE but cancelled") = "completed"
    ∧ generateExchangeStatusValues (mkCloseMsg "Transaction complete") = "completed"
    ∧ generateExchangeStatusValues (mkCloseMsg "payment EXPIRED") = "expired"
    ∧ generateExchangeStatusValues (mkCloseMsg "Order CANCELLED") = "cancelled"
    ∧ generateExchangeStatusValues (mkCloseMsg "unknown failure") = "failed" :=
  ⟨fun _ => rfl, by decide, by decide, by decide, by decide, by decide⟩

/-- The `switch (status)` body of `renderOrderStatus`. -/
def renderOrderStatusLabel (status : String) : String :=
  if status = "rfq" then "Requested"
  else if status = "quote" then "Quoted"
  else if status = "order" then "Pending"
  else if status = "orderstatus" then "Pending"
  else if status = "completed" then "Completed"
  else if status = "expired" then "Expired"
  else if status = "cancelled" then "Cancelled"
  else if status = "failed" then "Failed"
  else "Unknown status"

/-- `renderOrderStatus(exchange)` from `src/api-utils.ts`: derive the
status of the message, then map it through the switch. -/
def renderOrderStatus (exchange : Message) : String :=
  renderOrderStatusLabel (generateExchangeStatusValues exchange)

/-- Claim C5: the status-label switch maps the 8 status values to their
fixed labels, every other string to "Unknown status" (being a Lean
function it is total, with no failure mode), and `renderOrderStatus` is
exactly that switch applied to the derived status. -/
theorem renderOrderStatus_total_mapping :
    (renderOrderStatusLabel "rfq" = "Requested"
      ∧ renderOrderStatusLabel "quote" = "Quoted"
      ∧ renderOrderStatusLabel "order" = "Pending"
      ∧ renderOrderStatusLabel "orderstatus" = "Pending"
      ∧ renderOrderStatusLabel "completed" = "Completed"
      ∧ renderOrderStatusLabel "expired" = "Expired"
      ∧ renderOrderStatusLabel "cancelled" = "Cancelled"
      ∧ renderOrderStatusLabel "failed" = "Failed"
      ∧ ∀ m : Message, renderOrderStatus m =
          renderOrderStatusLabel (generateExchangeStatusValues m))
    ∧ (∀ s : String,
        s ∉ (["rfq", "quote", "order", "orderstatus", "completed", "expired",
              "cancelled", "failed"] : List String) →
        renderOrderStatusLabel s = "Unknown status") := by
  refine ⟨⟨rfl, rfl, rfl, rfl, rfl, rfl, rfl, rfl, fun _ => rfl⟩, ?_⟩
  intro s hs
  simp only [List.mem_cons, List.not_mem_nil, or_false, not_or] at hs
  obtain ⟨h1, h2, h3, h4, h5, h6, h7, h8⟩ := hs
  simp [renderOrderStatusLabel, h1, h2, h3, h4, h5, h6, h7, h8]

/-- Witness for C5 at the unmapped input "settled". -/
theorem renderOrderStatus_total_mapping_witness :
    ("settled" ∉ (["rfq", "quote", "order", "orderstatus", "completed", "expired",
        "cancelled", "failed"] : List String))
    ∧ renderOrderStatusLabel "settled" = "Unknown status" :=
  ⟨by decide, renderOrderStatus_total_mapping.2 "settled" (by decide)⟩

/-! ### Exchange projection (the mapper inside `fetchExchanges`) -/

/-- A JS value that is a string, `null`, or `undefined` — the three
outcomes the projection's field expressions can produce. -/
inductive JsValue where
  | undefined : JsValue
  | null : JsValue
  | str : String → JsValue
deriving DecidableEq

/-- `x ?? null` over a possibly-absent string. -/
def nullishStr : Option String → JsValue
  | some v => JsValue.str v
  | none => JsValue.null

/-- A possibly-absent string used directly as a JS value (no `?? null`):
absent stays `undefined`. -/
def undefOrStr : Option String → JsValue
  | some v => JsValue.str v
  | none => JsValue.undefined

/-- JS string coercion of an operand of `+` with a string: `undefined`
becomes the text "undefined". -/
def jsStringCoerce : Option String → String
  | some v => v
  | none => "undefined"

/-- Truthiness of a possibly-absent string: absent and empty are falsy. -/
def jsTruthy : Option String → Bool
  | some s => s != ""
  | none => false

/-- Accumulating decimal parser over characters; any non-digit character
makes the whole string NaN (`none`). -/
def digitsToNat (acc : Nat) : List Char → Option Nat
  | [] => some acc
  | c :: t => if c.isDigit then digitsToNat (10 * acc + (c.toNat - 48)) t else none

/-- `Number(x)` on a possibly-absent decimal string: absent is NaN
(`none`), the empty string is 0, a digit string parses, anything else is
NaN. -/
def jsNumber : Option String → Option Nat
  | none => none
  | some s => if s = "" then some 0 else digitsToNat 0 s.toList

/-- JS addition where NaN is absorbing. -/
def jsAdd : Option Nat → Option Nat → Option Nat
  | some a, some b => some (a + b)
  | _, _ => none

/-- `Number(...).toString()`: NaN prints as "NaN", which is never the
empty string — so the printed amount is always truthy. -/
def jsNumToString : Option Nat → String
  | some n => toString n
  | none => "NaN"

/-- `rfqMessage.privateData?.payout.paymentDetails`: an absent
`privateData` short-circuits to `undefined` (inner `none`), but a present
`privateData` with an absent `payout` throws (outer `none`), because
`.paymentDetails` is read without optional chaining. -/
def getPaymentDetails : Option PrivateData → Option (Option PaymentDetails)
  | none => some none
  | some privateData =>
    match privateData.payout with
    | none => none
    | some payoutPrivate => some payoutPrivate.paymentDetails

/-- The summary record built per exchange by `fetchExchanges`.
`expirationTime = none` models the field being absent from the record
(the conditional spread); the source field names `from`/`to` are kept as
quoted identifiers. -/
structure ExchangeSummary where
  id : String
  payinAmount : JsValue
  payinCurrency : JsValue
  payoutAmount : JsValue
  payoutCurrency : JsValue
  status : String
  createdTime : String
  expirationTime : Option JsValue
  «from» : String
  «to» : String
  pfiDid : String
deriving DecidableEq

/-- `message.kind === 'rfq'`, the predicate of the first `find`. -/
def isRfqMsg (message : Message) : Bool :=
  message.kind == MessageKind.rfq

/-- `message.kind === 'quote'`, the predicate of the second `find`. -/
def isQuoteMsg (message : Message) : Bool :=
  message.kind == MessageKind.quote

/-- The object literal returned by the mapper in `fetchExchanges`, once a
latest message, an rfq, a quote and the payout payment details are in
hand. Field by field:
  * `payinAmount`: `(fee ? Number(amount) + Number(fee) : Number(amount))
    .toString() || rfq.data.payinAmount` — the printed number falls back
    to the rfq amount only when it is the empty string;
  * `payinCurrency` and `payoutAmount` use `?? null`;
  * `payoutCurrency` has no `?? null` and stays `undefined` when absent;
  * `expirationTime` is spread in only when the latest message is a quote,
    with value `quote.data.expiresAt ?? null`;
  * `to`: `details?.address || details?.accountNumber + ', ' +
    details?.bankName || 'Unknown'` with JS coercion of `undefined`
    inside the concatenation. -/
def buildSummary (latestMessage rfqMessage quoteMessage : Message)
    (payoutPaymentDetails : Option PaymentDetails) : ExchangeSummary :=
  let fee := quoteMessage.payin.bind QuotePayload.fee
  let amount := quoteMessage.payin.bind QuotePayload.amount
  let payinTotal :=
    if jsTruthy fee then jsAdd (jsNumber amount) (jsNumber fee) else jsNumber amount
  let payinStr := jsNumToString payinTotal
  let concatDetails :=
    jsStringCoerce (payoutPaymentDetails.bind PaymentDetails.accountNumber) ++ ", "
      ++ jsStringCoerce (payoutPaymentDetails.bind PaymentDetails.bankName)
  { id := latestMessage.metadata.exchangeId
    payinAmount :=
      if payinStr != "" then JsValue.str payinStr else undefOrStr rfqMessage.payinAmount
    payinCurrency := nullishStr (quoteMessage.payin.bind QuotePayload.currencyCode)
    payoutAmount := nullishStr (quoteMessage.payout.bind QuotePayload.amount)
    payoutCurrency := undefOrStr (quoteMessage.payout.bind QuotePayload.currencyCode)
    status := generateExchangeStatusValues latestMessage
    createdTime := rfqMessage.createdAt
    expirationTime :=
      if latestMessage.kind = MessageKind.quote
      then some (nullishStr quoteMessage.expiresAt) else none
    «from» := "You"
    «to» :=
      match payoutPaymentDetails.bind PaymentDetails.address with
      | some a =>
        if a != "" then a
        else if concatDetails != "" then concatDetails else "Unknown"
      | none => if concatDetails != "" then concatDetails else "Unknown"
    pfiDid := rfqMessage.metadata.«to» }

/-- The projection of one exchange inside `fetchExchanges`. Throw paths
(`none`): an empty sequence (`latestMessage` is `undefined`), a missing
rfq (`rfqMessage.privateData` on `undefined`), a present `privateData`
with an absent `payout`, and a missing quote (`quoteMessage.data` is read
without optional chaining when computing `payinCurrency` and
`payoutCurrency`). -/
def projectExchange (exchange : List Message) : Option ExchangeSummary :=
  match exchange.getLast? with
  | none => none
  | some latestMessage =>
    match exchange.find? isRfqMsg with
    | none => none
    | some rfqMessage =>
      match getPaymentDetails rfqMessage.privateData with
      | none => none
      | some payoutPaymentDetails =>
        match exchange.find? isQuoteMsg with
        | none => none
        | some quoteMessage =>
          some (buildSummary latestMessage rfqMessage quoteMessage payoutPaymentDetails)

theorem projectExchange_eq_some_iff (exchange : List Message) (s : ExchangeSummary) :
    projectExchange exchange = some s ↔
      ∃ latestMessage rfqMessage payoutPaymentDetails quoteMessage,
        exchange.getLast? = some latestMessage
        ∧ exchange.find? isRfqMsg = some rfqMessage
        ∧ getPaymentDetails rfqMessage.privateData = some payoutPaymentDetails
        ∧ exchange.find? isQuoteMsg = some quoteMessage
        ∧ s = buildSummary latestMessage rfqMessage quoteMessage payoutPaymentDetails := by
  unfold projectExchange
  constructor
  · intro hp
    split at hp
    · exact absurd hp (by simp)
    · rename_i latestMessage hl
      split at hp
      · exact absurd hp (by simp)
      · rename_i rfqMessage hr
        split at hp
        · exact absurd hp (by simp)
        · rename_i payoutPaymentDetails hpd
          split at hp
          · exact absurd hp (by simp)
          · rename_i quoteMessage hq
            exact ⟨latestMessage, rfqMessage, payoutPaymentDetails, quoteMessage,
              hl, hr, hpd, hq, (Option.some.inj hp).symm⟩
  · rintro ⟨latestMessage, rfqMessage, payoutPaymentDetails, quoteMessage,
      hl, hr, hpd, hq, hs⟩
    subst hs
    simp only [hl, hr, hpd, hq]

theorem projectExchange_no_quote (exchange : List Message)
    (hq : exchange.find? isQuoteMsg = none) : projectExchange exchange = none := by
  cases hp : projectExchange exchange with
  | none => rfl
  | some s =>
    obtain ⟨l, r, pd, q, _, _, _, hq', _⟩ := (projectExchange_eq_some_iff exchange s).1 hp
    rw [hq] at hq'
    exact absurd hq' (by simp)

/-! ### Projection fixtures -/

/-- Payment details carrying only an address. -/
def detailsAddr : PaymentDetails :=
  { address := some "addr1", accountNumber := none, bankName := none }

/-- Payment details with no address, account number or bank name. -/
def detailsEmpty : PaymentDetails :=
  { address := none, accountNumber := none, bankName := none }

/-- The spec's scenario rfq: `payinAmount="100"`,
`payoutPaymentDetails.address="addr1"`, `to=PFI1`, `createdAt=T0`. -/
def rfqMsgG : Message :=
  { kind := MessageKind.rfq
    metadata := { exchangeId := "exg", «to» := "PFI1" }
    createdAt := "T0"
    reason := ""
    payin := none
    payout := none
    expiresAt := none
    payinAmount := some "100"
    privateData := some { payout := some { paymentDetails := some detailsAddr } } }

/-- The spec's scenario quote: payin amount "100" with fee "5" in USD,
payout "90" KES, expiry "2024-01-01". -/
def quoteMsgG : Message :=
  { kind := MessageKind.quote
    metadata := { exchangeId := "exg", «to» := "PFI1" }
    createdAt := "T1"
    reason := ""
    payin := some { amount := some "100", fee := some "5", currencyCode := some "USD" }
    payout := some { amount := some "90", fee := none, currencyCode := some "KES" }
    expiresAt := some "2024-01-01"
    payinAmount := none
    privateData := none }

/-- A two-message exchange ending in the quote. -/
def exGood : List Message := [rfqMsgG, quoteMsgG]

/-- The summary `exGood` projects to, written out field by field. -/
def summGood : ExchangeSummary :=
  { id := "exg"
    payinAmount := JsValue.str "105"
    payinCurrency := JsValue.str "USD"
    payoutAmount := JsValue.str "90"
    payoutCurrency := JsValue.str "KES"
    status := "quote"
    createdTime := "T0"
    expirationTime := some (JsValue.str "2024-01-01")
    «from» := "You"
    «to» := "addr1"
    pfiDid := "PFI1" }

/-- An rfq whose payment details carry no address, account number or bank
name. -/
def rfqMsgNoDetails : Message :=
  { kind := MessageKind.rfq
    metadata := { exchangeId := "exu", «to» := "PFI1" }
    createdAt := "T0"
    reason := ""
    payin := none
    payout := none
    expiresAt := none
    payinAmount := some "100"
    privateData := some { payout := some { paymentDetails := some detailsEmpty } } }

/-- A quote whose `data.payout` payload is entirely absent. -/
def quoteMsgNoPayout : Message :=
  { kind := MessageKind.quote
    metadata := { exchangeId := "exn", «to» := "PFI1" }
    createdAt := "T1"
    reason := ""
    payin := some { amount := some "100", fee := none, currencyCode := some "USD" }
    payout := none
    expiresAt := none
    payinAmount := none
    privateData := none }

/-! ### Projection claims -/

/-- Claim C3 (code bug): on the spec's own single-rfq scenario the
projection does not fall back to the rfq's requested payin amount "100" —
it throws (`quoteMessage.data` is dereferenced although no quote exists),
so no summary is produced at all. When a quote is present the fee path
does behave as claimed (`exGood` yields "105" = "100" + "5"); and the
`|| rfq` fallback is dead code because `Number(...).toString()` of an
absent amount is the truthy string "NaN". -/
theorem projectExchange_rfq_only_throws :
    projectExchange [rfqMsgG] = none
    ∧ (projectExchange exGood).map ExchangeSummary.payinAmount = some (JsValue.str "105")
    ∧ jsNumToString (jsNumber none) = "NaN"
    ∧ "NaN" ≠ "" := by
  refine ⟨rfl, rfl, rfl, by decide⟩

/-- Claim C4 (code bug): for an rfq whose payment details lack address,
account number and bank name, the projected `to` is the JS coercion
result "undefined, undefined", not the literal "Unknown" — the
`|| 'Unknown'` fallback is unreachable because the concatenation always
contains ", ". -/
theorem projectExchange_to_undefined_concat :
    (projectExchange [rfqMsgNoDetails, quoteMsgG]).map ExchangeSummary.«to»
        = some "undefined, undefined"
    ∧ "undefined, undefined" ≠ "Unknown" := by
  refine ⟨rfl, by decide⟩

/-- Counterexample to claim C6: with a quote whose payout payload is
absent, the projected `payoutCurrency` is `undefined`, not `null` (the
source line lacks the `?? null` its neighbours have). -/
theorem payoutCurrency_undefined_not_null :
    (projectExchange [rfqMsgG, quoteMsgNoPayout]).map ExchangeSummary.payoutCurrency
        = some JsValue.undefined
    ∧ JsValue.undefined ≠ JsValue.null := by
  refine ⟨rfl, by decide⟩

/-- Claim C6 as amended: whenever a summary is produced there is a quote
message, and `payinCurrency` / `payoutAmount` are read from its payin /
payout payloads with `null` for an absent payload or field, while
`payoutCurrency` is `undefined` (not `null`) in the absent cases; when
the exchange has no quote message the projection throws instead of
producing nulls. -/
theorem quote_fields_projection :
    (∀ (exchange : List Message) (s : ExchangeSummary),
      projectExchange exchange = some s →
      ∃ quoteMessage, exchange.find? isQuoteMsg = some quoteMessage
        ∧ s.payinCurrency = nullishStr (quoteMessage.payin.bind QuotePayload.currencyCode)
        ∧ s.payoutAmount = nullishStr (quoteMessage.payout.bind QuotePayload.amount)
        ∧ s.payoutCurrency = undefOrStr (quoteMessage.payout.bind QuotePayload.currencyCode))
    ∧ (∀ exchange : List Message,
        exchange.find? isQuoteMsg = none → projectExchange exchange = none) := by
  constructor
  · intro exchange s hp
    obtain ⟨latestMessage, rfqMessage, payoutPaymentDetails, quoteMessage,
      _, _, _, hq, hs⟩ := (projectExchange_eq_some_iff exchange s).1 hp
    subst hs
    exact ⟨quoteMessage, hq, rfl, rfl, rfl⟩
  · exact projectExchange_no_quote

/-- Witness for the amended C6 at the concrete exchange `exGood` (first
part) and at the quote-less exchange `[rfqMsgG]` (second part). -/
theorem quote_fields_projection_witness :
    (projectExchange exGood = some summGood
      ∧ ∃ quoteMessage, exGood.find? isQuoteMsg = some quoteMessage
          ∧ summGood.payinCurrency = nullishStr (quoteMessage.payin.bind QuotePayload.currencyCode)
          ∧ summGood.payoutAmount = nullishStr (quoteMessage.payout.bind QuotePayload.amount)
          ∧ summGood.payoutCurrency = undefOrStr (quoteMessage.payout.bind QuotePayload.currencyCode))
    ∧ (([rfqMsgG] : List Message).find? isQuoteMsg = none
        ∧ projectExchange [rfqMsgG] = none) :=
  ⟨⟨rfl, quote_fields_projection.1 exGood summGood rfl⟩,
    ⟨rfl, quote_fields_projection.2 [rfqMsgG] rfl⟩⟩

/-- Claim C7: a produced summary carries an `expirationTime` field exactly
when the latest message of the exchange is a quote; in that case its
value is the quote's `expiresAt`, or `null` when the quote declares none,
and for any other latest-message kind the field is absent. -/
theorem expirationTime_iff_latest_quote :
    ∀ (exchange : List Message) (s : ExchangeSummary) (latestMessage : Message),
      projectExchange exchange = some s →
      exchange.getLast? = some latestMessage →
      ((s.expirationTime ≠ none ↔ latestMessage.kind = MessageKind.quote)
        ∧ ∃ quoteMessage, exchange.find? isQuoteMsg = some quoteMessage
            ∧ s.expirationTime =
                (if latestMessage.kind = MessageKind.quote
                 then some (nullishStr quoteMessage.expiresAt) else none)) := by
  intro exchange s latestMessage hp hl
  obtain ⟨latest', rfqMessage, payoutPaymentDetails, quoteMessage,
    hl', _, _, hq, hs⟩ := (projectExchange_eq_some_iff exchange s).1 hp
  rw [hl] at hl'
  injection hl' with hle
  subst hle
  subst hs
  constructor
  · by_cases hk : latestMessage.kind = MessageKind.quote
    · simp [buildSummary, hk]
    · simp [buildSummary, hk]
  · refine ⟨quoteMessage, hq, ?_⟩
    by_cases hk : latestMessage.kind = MessageKind.quote
    · simp [buildSummary, hk]
    · simp [buildSummary, hk]

/-- Witness for C7 at `exGood`, whose latest message is the quote. -/
theorem expirationTime_iff_latest_quote_witness :
    (projectExchange exGood = some summGood
      ∧ exGood.getLast? = some quoteMsgG)
    ∧ ((summGood.expirationTime ≠ none ↔ quoteMsgG.kind = MessageKind.quote)
      ∧ ∃ quoteMessage, exGood.find? isQuoteMsg = some quoteMessage
          ∧ summGood.expirationTime =
              (if quoteMsgG.kind = MessageKind.quote
               then some (nullishStr quoteMessage.expiresAt) else none)) :=
  ⟨⟨rfl, rfl⟩,
    expirationTime_iff_latest_quote exGood summGood quoteMsgG rfl rfl⟩

/-- Claim C9: the projection is a pure function of the message sequence,
so it is deterministic and idempotent — two projections of the same
sequence agree in every field, including the presence or absence of
`expirationTime`. -/
theorem projectExchange_deterministic :
    ∀ (exchange : List Message) (s1 s2 : ExchangeSummary),
      projectExchange exchange = some s1 → projectExchange exchange = some s2 →
      s1 = s2 := by
  intro exchange s1 s2 h1 h2
  rw [h1] at h2
  exact Option.some.inj h2

/-- Witness for C9 at `exGood`. -/
theorem projectExchange_deterministic_witness :
    projectExchange exGood = some summGood ∧ summGood = summGood :=
  ⟨rfl, projectExchange_deterministic exGood summGood summGood rfl rfl⟩
